import Mathlib

set_option maxHeartbeats 1600000

namespace WaSendFile

/-- Manager state of the WhatsApp session lifecycle service
(`src/services/whatsappService.js`, with the variant in
`src/unnamed/part_000`).  The fields `qrCode`, `restarting`, `backoff` and
`clientReady` are exactly the mutable fields assigned in the constructor of
`WhatsAppService`; `hasClient` records that the client handle `this.client`
is non-null; `handshake` records that the current client handle has
completed its ready handshake (emitted its `ready` event); `active` is a
ghost counter of restart bodies currently between entry (the line
`this.restarting = true`) and completion (the scheduled timer callback or
the catch block), used to state the at-most-one-concurrent-restart
invariant. -/
structure MState where
  qrCode : Option String
  restarting : Bool
  backoff : Nat
  clientReady : Bool
  hasClient : Bool
  handshake : Bool
  active : Nat
  deriving DecidableEq, Repr

/-- The state right after the constructor of `WhatsAppService` ran:
`qrCode = null`, `restarting = false`, `backoff = 2000`,
`clientReady = false`, and `this.client` assigned (non-null). -/
def init0 : MState :=
  { qrCode := none, restarting := false, backoff := 2000,
    clientReady := false, hasClient := true, handshake := false, active := 0 }

/-- `isAuthenticated()` from `src/services/whatsappService.js`:
`return this.qrCode === null && this.clientReady`. -/
def isAuthenticated (s : MState) : Bool :=
  (s.qrCode == none) && s.clientReady

/-- `isClientReady()` from `src/unnamed/part_000` (also in
`src/unnamed/part_002` via the imported service):
`return this.clientReady && this.client && !this.restarting`. -/
def isClientReadyP0 (s : MState) : Bool :=
  s.clientReady && s.hasClient && !s.restarting

/-- `isConnected()` from `src/services/whatsappService.js`.  The external
`this.client.getState()` call is passed in as `query`: `Except.error`
models the query raising (caught, returning false), `Except.ok st` models
it resolving to the state string `st`. -/
def isConnectedV1 (s : MState) (query : Except Unit String) : Bool :=
  if !s.hasClient || !s.clientReady then
    false
  else
    match query with
    | Except.error _ => false
    | Except.ok st => st == "CONNECTED"

/-- Effect of the `qrcode.toDataURL` callback inside the `qr` handler of
`src/services/whatsappService.js` (lines 84-90): on error it returns
without mutating, otherwise it stores the encoded url.  There is no guard
against an empty url. -/
def qrCbV1 (s : MState) (res : Except Unit String) : MState :=
  match res with
  | Except.error _ => s
  | Except.ok url => { s with qrCode := some url }

/-- Effect of the `qrcode.toDataURL` callback inside the `qr` handler of
`src/unnamed/part_000` (`setupRealEvents`, lines 274-289): on error or on
an empty url it returns without mutating, otherwise it stores the url. -/
def qrCbP0 (s : MState) (res : Except Unit String) : MState :=
  match res with
  | Except.error _ => s
  | Except.ok url => if url = "" then s else { s with qrCode := some url }

/-- `ready` handler: `this.qrCode = null; this.clientReady = true`.  The
event is emitted by the client completing its ready handshake, so the
ghost `handshake` field is set. -/
def onReady (s : MState) : MState :=
  { s with qrCode := none, clientReady := true, handshake := true }

/-- `authenticated` handler: `this.qrCode = null`. -/
def onAuthenticated (s : MState) : MState :=
  { s with qrCode := none }

/-- `auth_failure` handler: `this.qrCode = null; this.clientReady = false`. -/
def onAuthFailure (s : MState) : MState :=
  { s with qrCode := none, clientReady := false }

/-- `error` handler of `src/services/whatsappService.js`:
`this.clientReady = false`. -/
def onClientError (s : MState) : MState :=
  { s with clientReady := false }

/-- The `catch` of `this.client.initialize()` in
`src/services/whatsappService.js`: `this.clientReady = false`. -/
def onInitFail (s : MState) : MState :=
  { s with clientReady := false }

/-- Synchronous effect of the `qr` handler storing `url` (this is the
asynchronous callback completing; see `qrCbV1`). -/
def onQrStored (url : String) (s : MState) : MState :=
  { s with qrCode := some url }

/-- External calls the service makes, for call logs.  Each log entry pairs
the call with the manager state at the moment the call is made. -/
inductive CallEv where
  | clientDestroy
  | waitBrowserClose
  | removeSession
  | clientLogout
  | restartInvoke
  | mediaFromUrl
  | clientSendMessage
  | clientGetChats
  | fetchMessages
  deriving DecidableEq, Repr

/-- Entry of `restart()` past the guard, in both
`src/services/whatsappService.js` (lines 174-175) and
`src/unnamed/part_000` (lines 415-416): `this.restarting = true;
this.clientReady = false`.  The ghost `active` counter is incremented. -/
def restartEnter (s : MState) : MState :=
  { s with restarting := true, clientReady := false, active := s.active + 1 }

/-- `await this.client.destroy()`: the handle stays non-null but its ready
handshake is gone. -/
def destroyStep (s : MState) : MState :=
  { s with handshake := false }

/-- Backoff update in the catch block of `restart()` in
`src/services/whatsappService.js` (line 204):
`this.backoff = Math.min(this.backoff * 2, 60000)`. -/
def failBackoff (b : Nat) : Nat :=
  min (b * 2) 60000

/-- Catch block of `restart()` in `src/services/whatsappService.js`
(lines 200-205): `this.restarting = false; this.clientReady = false;
this.backoff = Math.min(this.backoff * 2, 60000)`, then a retry is
scheduled.  The ghost `active` counter is decremented (the sequence
ended). -/
def restartCatch (s : MState) : MState :=
  { s with restarting := false, clientReady := false,
           backoff := failBackoff s.backoff, active := s.active - 1 }

/-- The scheduled timer callback of a successful `restart()` in
`src/services/whatsappService.js` (lines 194-199): `this._init();
this.restarting = false; this.backoff = 2000; this.clientReady = false`.
Re-initialization means the ready handshake has not happened yet for the
fresh session. -/
def restartTimerOk (s : MState) : MState :=
  { s with restarting := false, backoff := 2000, clientReady := false,
           handshake := false, active := s.active - 1 }

/-- The awaited body of `restart()` in `src/services/whatsappService.js`
(lines 180-192): conditional `destroy()` (its own failure is caught
inline), `waitForBrowserClose()`, `removeSession()`.  Returns the state
after the body together with the log of external calls, each paired with
the state at the time of the call. -/
def restartBodyV1 (s1 : MState) : MState × List (CallEv × MState) :=
  let (s2, l1) :=
    if s1.hasClient then (destroyStep s1, [(CallEv.clientDestroy, s1)])
    else (s1, [])
  (s2, l1 ++ [(CallEv.waitBrowserClose, s2), (CallEv.removeSession, s2)])

/-- `restart()` from `src/services/whatsappService.js` (lines 172-207) up
to the point where control returns to the caller.  `ok = true`: the try
block completed and the timer is pending (`restarting` is still true until
`restartTimerOk` fires).  `ok = false`: the try block raised (modelled as
raised after the body steps) and the catch ran. -/
def restartV1 (s : MState) (ok : Bool) : MState × List (CallEv × MState) :=
  if s.restarting then (s, [])
  else
    let s1 := restartEnter s
    let (s2, lg) := restartBodyV1 s1
    if ok then (s2, lg) else (restartCatch s2, lg)

/-- Catch block of `restart()` in `src/unnamed/part_000` (lines 439-447):
`this.restarting = false`, then a retry is scheduled after
`this.backoff * 2`; the `backoff` field itself is NOT updated. -/
def restartCatchP0 (s : MState) : MState :=
  { s with restarting := false, active := s.active - 1 }

/-- The awaited body of `restart()` in `src/unnamed/part_000`
(lines 418-430): conditional `destroy()` (failure caught inline) guarded
by `!this.mockMode && this.client`, then `removeSession()`. -/
def restartBodyP0 (mock : Bool) (s1 : MState) : MState × List (CallEv × MState) :=
  let (s2, l1) :=
    if !mock && s1.hasClient then (destroyStep s1, [(CallEv.clientDestroy, s1)])
    else (s1, [])
  (s2, l1 ++ [(CallEv.removeSession, s2)])

/-- `restart()` from `src/unnamed/part_000` (lines 409-448) up to the
point where control returns to the caller; same conventions as
`restartV1`. -/
def restartP0 (s : MState) (mock ok : Bool) : MState × List (CallEv × MState) :=
  if s.restarting then (s, [])
  else
    let s1 := restartEnter s
    let (s2, lg) := restartBodyP0 mock s1
    if ok then (s2, lg) else (restartCatchP0 s2, lg)

/-- `logout()` from `src/services/whatsappService.js` (lines 209-218):
try `this.client.logout()` if a handle exists and the session is ready
(its exception is caught and only logged, so the state after the try block
is the same whether or not `logoutFails`), then `await this.restart()`
unconditionally.  No local state is cleared by `logout` itself. -/
def logoutV1 (s : MState) (logoutFails ok : Bool) : MState × List (CallEv × MState) :=
  let l0 := if s.hasClient && s.clientReady then [(CallEv.clientLogout, s)] else []
  let sAfterTry := if logoutFails then s else s
  let (s2, lg) := restartV1 sAfterTry ok
  (s2, l0 ++ (CallEv.restartInvoke, sAfterTry) :: lg)

/-- `logout()` from `src/unnamed/part_000` (lines 450-468): first clears
`this.clientReady = false; this.qrCode = null`, then conditionally
`this.client.logout()` (if it raises, control jumps to the catch block,
which awaits `restart()`), then `removeSession()`, then `restart()`. -/
def logoutP0 (s : MState) (mock logoutFails ok : Bool) : MState × List (CallEv × MState) :=
  let s1 := { s with clientReady := false, qrCode := none }
  if !mock && s.hasClient then
    if logoutFails then
      let (s2, lg) := restartP0 s1 mock ok
      (s2, (CallEv.clientLogout, s1) :: (CallEv.restartInvoke, s1) :: lg)
    else
      let (s2, lg) := restartP0 s1 mock ok
      (s2, [(CallEv.clientLogout, s1), (CallEv.removeSession, s1),
            (CallEv.restartInvoke, s1)] ++ lg)
  else
    let (s2, lg) := restartP0 s1 mock ok
    (s2, [(CallEv.removeSession, s1), (CallEv.restartInvoke, s1)] ++ lg)

/-- Asynchronous events interleaved by the single-threaded event loop:
client lifecycle events, the two possible completions of the qr encoding
callback, external `restart()` invocations, and the two possible
completions of an in-flight restart body. -/
inductive Ev where
  | qrRaw (raw : String)
  | qrStored (url : String)
  | qrFail
  | ready
  | authed
  | authFailed
  | disconnected
  | clientError
  | initFailed
  | callRestart
  | restartTimer
  | restartFail
  deriving DecidableEq, Repr

/-- One interleaving step of the `src/services/whatsappService.js`
manager.  The `disconnected` handler sets `clientReady = false` and then
awaits `restart()`, whose guard makes it a no-op when a restart is already
in flight.  `callRestart` is any other invocation of `restart()` (the
`/logout` route, a retry timer).  `restartTimer` is the scheduled callback
of a successful restart body; `restartFail` is the catch block of a failed
one; both require an in-flight restart. -/
inductive Step : MState → Ev → MState → Prop where
  | qrRaw (s : MState) (raw : String) : Step s (Ev.qrRaw raw) s
  | qrStored (s : MState) (url : String) :
      Step s (Ev.qrStored url) (onQrStored url s)
  | qrFail (s : MState) : Step s Ev.qrFail s
  | ready (s : MState) (h : s.hasClient = true) : Step s Ev.ready (onReady s)
  | authed (s : MState) : Step s Ev.authed (onAuthenticated s)
  | authFailed (s : MState) : Step s Ev.authFailed (onAuthFailure s)
  | discSkip (s : MState) (h : s.restarting = true) :
      Step s Ev.disconnected { s with clientReady := false }
  | discRestart (s : MState) (h : s.restarting = false) :
      Step s Ev.disconnected (restartEnter { s with clientReady := false })
  | clientError (s : MState) : Step s Ev.clientError (onClientError s)
  | initFailed (s : MState) : Step s Ev.initFailed (onInitFail s)
  | callSkip (s : MState) (h : s.restarting = true) : Step s Ev.callRestart s
  | callEnter (s : MState) (h : s.restarting = false) :
      Step s Ev.callRestart (restartEnter s)
  | timerFires (s : MState) (h : s.restarting = true) :
      Step s Ev.restartTimer (restartTimerOk s)
  | bodyFails (s : MState) (h : s.restarting = true) :
      Step s Ev.restartFail (restartCatch s)

/-- States reachable from construction by interleaved events. -/
inductive Reach : MState → Prop where
  | init : Reach init0
  | step {s : MState} {e : Ev} {s' : MState} : Reach s → Step s e s' → Reach s'

/-- Execution of a finite event list. -/
inductive RunTo : MState → List Ev → MState → Prop where
  | nil (s : MState) : RunTo s [] s
  | cons {s s' s'' : MState} {e : Ev} {l : List Ev} :
      Step s e s' → RunTo s' l s'' → RunTo s (e :: l) s''

/-- The `backoff` value after `n` consecutive failed restart attempts in
`src/services/whatsappService.js`, starting from the initial floor. -/
def backoffAfter : Nat → Nat
  | 0 => 2000
  | n + 1 => failBackoff (backoffAfter n)

/-- An HTTP response of the express layer: status code and the
status-specific message field of the JSON body. -/
structure Resp where
  status : Nat
  message : String
  deriving DecidableEq, Repr

/-- Not-ready message of the `POST /send-file` handler in
`src/unnamed/part_002`. -/
def notReadyMsgApp2 : String := "WhatsApp client is not ready. Please wait or reconnect."

/-- Not-ready message of the `GET /conversations` handler in
`src/unnamed/part_002`. -/
def notReadyMsgConv : String := "WhatsApp client is not ready"

/-- `POST /send-file` handler of `src/unnamed/part_001` (lines 37-50).
It performs no readiness check at all: the manager state `_s` is in scope
through the `waService` closure but never consulted.  `fromUrlRes` and
`sendRes` are the outcomes of the two awaited client calls; any rejection
is caught and answered with a generic 500 carrying the error message. -/
def sendFileApp1 (_s : MState) (fromUrlRes sendRes : Except String Unit) :
    Resp × List CallEv :=
  match fromUrlRes with
  | Except.error m => (⟨500, m⟩, [CallEv.mediaFromUrl])
  | Except.ok _ =>
    match sendRes with
    | Except.error m => (⟨500, m⟩, [CallEv.mediaFromUrl, CallEv.clientSendMessage])
    | Except.ok _ =>
      (⟨200, "send file success"⟩, [CallEv.mediaFromUrl, CallEv.clientSendMessage])

/-- `GET /conversations` handler of `src/unnamed/part_001` (lines 52-65).
No readiness check; `chats` is the outcome of `getChats()` (number of
chats on success); with zero chats, `chat[0].fetchMessages` raises a
TypeError that the catch turns into a 500. -/
def conversationsApp1 (_s : MState) (chats : Except String Nat)
    (fetchRes : Except String Unit) : Resp × List CallEv :=
  match chats with
  | Except.error m => (⟨500, m⟩, [CallEv.clientGetChats])
  | Except.ok 0 =>
    (⟨500, "Cannot read properties of undefined"⟩, [CallEv.clientGetChats])
  | Except.ok (_ + 1) =>
    match fetchRes with
    | Except.error m => (⟨500, m⟩, [CallEv.clientGetChats, CallEv.fetchMessages])
    | Except.ok _ => (⟨200, "success"⟩, [CallEv.clientGetChats, CallEv.fetchMessages])

/-- `POST /send-file` handler of `src/unnamed/part_002` (lines 98-128):
first the readiness guard answering 400 without touching the client, then
the required-parameter guard, then the same forwarding as in
`src/unnamed/part_001`. -/
def sendFileApp2 (s : MState) (paramsOk : Bool)
    (fromUrlRes sendRes : Except String Unit) : Resp × List CallEv :=
  if !(isClientReadyP0 s) then (⟨400, notReadyMsgApp2⟩, [])
  else if !paramsOk then
    (⟨400, "Missing required parameters: fileUrl, chatId, or fileName"⟩, [])
  else sendFileApp1 s fromUrlRes sendRes

/-- `GET /conversations` handler of `src/unnamed/part_002`
(lines 130-159): readiness guard answering 400 without touching the
client, then `getChats()` with an explicit empty-chat-list branch. -/
def conversationsApp2 (s : MState) (chats : Except String Nat)
    (fetchRes : Except String Unit) : Resp × List CallEv :=
  if !(isClientReadyP0 s) then (⟨400, notReadyMsgConv⟩, [])
  else
    match chats with
    | Except.error m => (⟨500, m⟩, [CallEv.clientGetChats])
    | Except.ok 0 => (⟨200, "success"⟩, [CallEv.clientGetChats])
    | Except.ok (_ + 1) =>
      match fetchRes with
      | Except.error m => (⟨500, m⟩, [CallEv.clientGetChats, CallEv.fetchMessages])
      | Except.ok _ => (⟨200, "success"⟩, [CallEv.clientGetChats, CallEv.fetchMessages])

/-- A ready, authenticated manager state with a pending stored token
value, used as a concrete input. -/
def s8 : MState :=
  { qrCode := some "QR", restarting := false, backoff := 2000,
    clientReady := true, hasClient := true, handshake := true, active := 0 }

/-- A pre-ready manager state with a previously stored token, used as a
concrete input. -/
def s10 : MState :=
  { qrCode := some "OLD", restarting := false, backoff := 2000,
    clientReady := false, hasClient := true, handshake := false, active := 0 }

theorem beq_none_of_ne {o : Option String} (h : o ≠ none) : (o == none) = false := by
  cases o with
  | none => exact absurd rfl h
  | some u => rfl

theorem isAuthenticated_false_of_qr {s : MState} (h : s.qrCode ≠ none) :
    isAuthenticated s = false := by
  unfold isAuthenticated
  rw [beq_none_of_ne h]
  rfl

theorem restartBodyV1_states (s1 : MState) (c : CallEv) (t : MState)
    (h : (c, t) ∈ (restartBodyV1 s1).2) : t.restarting = s1.restarting := by
  by_cases hc : s1.hasClient = true <;>
    simp [restartBodyV1, hc, destroyStep] at h <;>
    rcases h with ⟨-, h⟩ | ⟨-, h⟩ | ⟨-, h⟩ <;> simp_all [destroyStep]

theorem restartBodyP0_states (mock : Bool) (s1 : MState) (c : CallEv) (t : MState)
    (h : (c, t) ∈ (restartBodyP0 mock s1).2) :
    t.restarting = s1.restarting ∧ t.qrCode = s1.qrCode ∧ t.clientReady = s1.clientReady := by
  by_cases hc : (!mock && s1.hasClient) = true <;>
    simp [restartBodyP0, hc, destroyStep] at h <;>
    rcases h with ⟨-, h⟩ | ⟨-, h⟩ <;> simp_all [destroyStep]

/-- Claim C7: `isAuthenticated()` returns true if and only if there is no
pending login token (`qrCode` is null) and the session is ready
(`clientReady` is true). -/
theorem isAuthenticated_iff :
    ∀ s : MState, isAuthenticated s = true ↔ (s.qrCode = none ∧ s.clientReady = true) := by
  intro s
  simp [isAuthenticated]

/-- Claim C6: `isConnected()` of `src/services/whatsappService.js` never
raises (it is a total boolean function of the state and the query
outcome); it returns false when the client handle is absent, when the
session is not ready, and when `getState()` raises, and otherwise returns
true exactly when the queried state equals "CONNECTED". -/
theorem isConnected_total_behavior :
    (∀ (s : MState) (q : Except Unit String), s.hasClient = false → isConnectedV1 s q = false)
    ∧ (∀ (s : MState) (q : Except Unit String), s.clientReady = false → isConnectedV1 s q = false)
    ∧ (∀ s : MState, isConnectedV1 s (Except.error ()) = false)
    ∧ (∀ (s : MState) (st : String), s.hasClient = true → s.clientReady = true →
        (isConnectedV1 s (Except.ok st) = true ↔ st = "CONNECTED")) := by
  refine ⟨?_, ?_, ?_, ?_⟩
  · intro s q h
    simp [isConnectedV1, h]
  · intro s q h
    simp [isConnectedV1, h]
  · intro s
    by_cases h1 : s.hasClient = true <;> by_cases h2 : s.clientReady = true <;>
      simp [isConnectedV1, h1, h2]
  · intro s st h1 h2
    simp [isConnectedV1, h1, h2]

/-- Claim C6 witness: the theorem applied at a concrete not-ready state
and at a concrete ready state. -/
theorem isConnected_total_behavior_witness :
    isConnectedV1 init0 (Except.ok "CONNECTED") = false
    ∧ (isConnectedV1 s8 (Except.ok "OPENING") = true ↔ "OPENING" = "CONNECTED") :=
  ⟨isConnected_total_behavior.2.1 init0 (Except.ok "CONNECTED") rfl,
   isConnected_total_behavior.2.2.2 s8 "OPENING" rfl rfl⟩

/-- Claim C4: for every manager state, `logout()` of
`src/services/whatsappService.js` always ends by invoking the restart
sequence — the restart invocation is in its call log and its final state
is the state produced by `restart()` — even when the underlying
`client.logout()` call raises (`logoutFails = true`): the exception is
caught and `restart()` is still awaited. -/
theorem logout_always_restarts :
    ∀ (s : MState) (logoutFails ok : Bool),
      (CallEv.restartInvoke, s) ∈ (logoutV1 s logoutFails ok).2
      ∧ (logoutV1 s logoutFails ok).1 = (restartV1 s ok).1 := by
  intro s logoutFails ok
  constructor
  · simp [logoutV1]
  · simp [logoutV1]

theorem active_restarting_inv :
    ∀ s : MState, Reach s → s.active = (if s.restarting then 1 else 0) := by
  intro s h
  induction h with
  | init => rfl
  | step hr hs ih =>
    cases hs <;>
      simp_all [init0, onQrStored, onReady, onAuthenticated, onAuthFailure,
        onClientError, onInitFail, restartEnter, restartTimerOk, restartCatch]

/-- Claim C1: at most one restart sequence is ever active concurrently.
Along every reachable interleaving of `disconnected` events and restart
invocations the ghost count of in-flight restart bodies never exceeds one;
a call to `restart()` while `restarting` is already true returns
immediately without changing anything (in both
`src/services/whatsappService.js` and `src/unnamed/part_000`, and in the
step machine); and in the entering branch the `restarting` flag is already
true at the moment of every teardown call the body makes. -/
theorem restart_at_most_one :
    (∀ s : MState, Reach s → s.active ≤ 1)
    ∧ (∀ (s : MState) (mock ok : Bool), s.restarting = true →
        restartV1 s ok = (s, []) ∧ restartP0 s mock ok = (s, []))
    ∧ (∀ (s : MState) (ok : Bool) (c : CallEv) (t : MState),
        (c, t) ∈ (restartV1 s ok).2 → t.restarting = true)
    ∧ (∀ (s : MState) (mock ok : Bool) (c : CallEv) (t : MState),
        (c, t) ∈ (restartP0 s mock ok).2 → t.restarting = true)
    ∧ (∀ s s' : MState, s.restarting = true → Step s Ev.callRestart s' → s' = s) := by
  refine ⟨?_, ?_, ?_, ?_, ?_⟩
  · intro s h
    rw [active_restarting_inv s h]
    by_cases hr : s.restarting = true <;> simp [hr]
  · intro s mock ok h
    constructor <;> simp [restartV1, restartP0, h]
  · intro s ok c t h
    by_cases hr : s.restarting = true
    · simp [restartV1, hr] at h
    · have hb : (c, t) ∈ (restartBodyV1 (restartEnter s)).2 := by
        by_cases hk : ok = true <;> simp_all [restartV1]
      have := restartBodyV1_states (restartEnter s) c t hb
      simp [restartEnter] at this
      exact this
  · intro s mock ok c t h
    by_cases hr : s.restarting = true
    · simp [restartP0, hr] at h
    · have hb : (c, t) ∈ (restartBodyP0 mock (restartEnter s)).2 := by
        by_cases hk : ok = true <;> simp_all [restartP0]
      have := (restartBodyP0_states mock (restartEnter s) c t hb).1
      simp [restartEnter] at this
      exact this
  · intro s s' hr hs
    cases hs with
    | callSkip => rfl
    | callEnter h => rw [hr] at h; cases h

/-- Claim C1 witness: the invariant at the initial state, and the guard
no-op at a concrete in-flight state. -/
theorem restart_at_most_one_witness :
    init0.active ≤ 1
    ∧ restartV1 { init0 with restarting := true } true
        = ({ init0 with restarting := true }, []) :=
  ⟨restart_at_most_one.1 init0 Reach.init,
   (restart_at_most_one.2.1 { init0 with restarting := true } false true rfl).1⟩

theorem backoffAfter_closed_form :
    ∀ n : Nat, backoffAfter n = min (2000 * 2 ^ n) 60000 := by
  intro n
  induction n with
  | zero => simp [backoffAfter]
  | succ n ih =>
    rw [backoffAfter, ih, failBackoff, pow_succ]
    have h : 2000 * (2 ^ n * 2) = 2000 * 2 ^ n * 2 := by ring
    rw [h]
    generalize 2000 * 2 ^ n = a
    omega

/-- Claim C2 counterexample: in the restart sequence of
`src/unnamed/part_000` (a source cited by the claim), one failed restart
attempt starting from the initial floor leaves the backoff field at 2000
rather than min (2000 * 2 ^ 1) 60000 = 4000 — that variant never updates
`this.backoff` at all. -/
theorem backoff_policy_cex :
    ((restartP0 init0 false false).1).backoff ≠ min (2000 * 2 ^ 1) 60000 := by
  decide

/-- Claim C2 (amended): in `src/services/whatsappService.js` the backoff
starts at the 2000 ms floor, after N consecutive failed restart attempts
equals min (2000 * 2 ^ N) 60000, is monotonically non-decreasing across
those failures (each failure applies `failBackoff`, each success timer
resets to 2000); in the `src/unnamed/part_000` variant the backoff field
is never updated by `restart()`. -/
theorem backoff_policy :
    (∀ n : Nat, backoffAfter n = min (2000 * 2 ^ n) 60000)
    ∧ (∀ n : Nat, backoffAfter n ≤ backoffAfter (n + 1))
    ∧ init0.backoff = 2000
    ∧ (∀ s s' : MState, Step s Ev.restartFail s' → s'.backoff = failBackoff s.backoff)
    ∧ (∀ s s' : MState, Step s Ev.restartTimer s' → s'.backoff = 2000)
    ∧ (∀ (s : MState) (mock ok : Bool), ((restartP0 s mock ok).1).backoff = s.backoff) := by
  refine ⟨backoffAfter_closed_form, ?_, rfl, ?_, ?_, ?_⟩
  · intro n
    rw [backoffAfter_closed_form n, backoffAfter_closed_form (n + 1), pow_succ]
    have h : 2000 * (2 ^ n * 2) = 2000 * 2 ^ n * 2 := by ring
    rw [h]
    generalize 2000 * 2 ^ n = a
    omega
  · intro s s' hs
    cases hs
    rfl
  · intro s s' hs
    cases hs
    rfl
  · intro s mock ok
    by_cases hr : s.restarting = true
    · simp [restartP0, hr]
    · by_cases hk : ok = true <;>
        simp [restartP0, hr, restartBodyP0, hk, restartEnter, destroyStep,
          restartCatchP0] <;>
        split <;> rfl

/-- Claim C2 witness: the failure-step conjunct applied at a concrete
in-flight state with backoff 2000. -/
theorem backoff_policy_witness :
    (restartCatch { init0 with restarting := true, active := 1 }).backoff
      = failBackoff 2000 :=
  backoff_policy.2.2.2.1 { init0 with restarting := true, active := 1 } _
    (Step.bodyFails { init0 with restarting := true, active := 1 } rfl)

/-- Claim C9: whenever the session is ready (`clientReady = true`) on a
reachable state, the client handle is non-null and has completed its ready
handshake; `clientReady` becomes true only through the `ready` event of
the subscribed client, and every failure path — `auth_failure`,
`disconnected`, client `error`, initialization failure, and entry into the
restart sequence — sets it to false. -/
theorem ready_implies_client :
    (∀ s : MState, Reach s → s.clientReady = true →
        s.hasClient = true ∧ s.handshake = true)
    ∧ (∀ (s : MState) (e : Ev) (s' : MState), Step s e s' →
        s.clientReady = false → s'.clientReady = true → e = Ev.ready)
    ∧ (∀ s s' : MState, Step s Ev.authFailed s' → s'.clientReady = false)
    ∧ (∀ s s' : MState, Step s Ev.disconnected s' → s'.clientReady = false)
    ∧ (∀ s s' : MState, Step s Ev.clientError s' → s'.clientReady = false)
    ∧ (∀ s s' : MState, Step s Ev.initFailed s' → s'.clientReady = false)
    ∧ (∀ s s' : MState, s.restarting = false → Step s Ev.callRestart s' →
        s'.clientReady = false) := by
  refine ⟨?_, ?_, ?_, ?_, ?_, ?_, ?_⟩
  · intro s h
    induction h with
    | init => intro h; cases h
    | step hr hs ih =>
      cases hs <;>
        simp_all [init0, onQrStored, onReady, onAuthenticated, onAuthFailure,
          onClientError, onInitFail, restartEnter, restartTimerOk, restartCatch]
  · intro s e s' hs h0 h1
    cases hs <;>
      simp_all [onQrStored, onReady, onAuthenticated, onAuthFailure,
        onClientError, onInitFail, restartEnter, restartTimerOk, restartCatch]
  · intro s s' hs
    cases hs
    rfl
  · intro s s' hs
    cases hs <;> rfl
  · intro s s' hs
    cases hs
    rfl
  · intro s s' hs
    cases hs
    rfl
  · intro s s' hr hs
    cases hs with
    | callSkip h => rw [h] at hr; cases hr
    | callEnter => rfl

/-- Claim C9 witness: the invariant applied at the concrete reachable
ready state produced by the `ready` event from the initial state. -/
theorem ready_implies_client_witness :
    (onReady init0).hasClient = true ∧ (onReady init0).handshake = true :=
  ready_implies_client.1 (onReady init0)
    (Reach.step Reach.init (Step.ready init0 rfl)) rfl

theorem qrCode_some_preserved {s : MState} {l : List Ev} {s' : MState}
    (hrun : RunTo s l s')
    (hl : ∀ e ∈ l, e ≠ Ev.ready ∧ e ≠ Ev.authed ∧ e ≠ Ev.authFailed)
    (h : s.qrCode ≠ none) : s'.qrCode ≠ none := by
  induction hrun with
  | nil => exact h
  | cons hstep htail ih =>
    refine ih (fun e he => hl e (List.mem_cons_of_mem _ he)) ?_
    cases hstep <;>
      simp_all [onQrStored, onReady, onAuthenticated, onAuthFailure,
        onClientError, onInitFail, restartEnter, restartTimerOk, restartCatch]

theorem clientReady_false_preserved {s : MState} {l : List Ev} {s' : MState}
    (hrun : RunTo s l s') (hl : Ev.ready ∉ l) (h : s.clientReady = false) :
    s'.clientReady = false := by
  induction hrun with
  | nil => exact h
  | cons hstep htail ih =>
    rw [List.mem_cons] at hl
    push_neg at hl
    refine ih hl.2 ?_
    cases hstep <;>
      simp_all [onQrStored, onReady, onAuthenticated, onAuthFailure,
        onClientError, onInitFail, restartEnter, restartTimerOk, restartCatch]

/-- Claim C3 counterexample: the claim fails on the concrete event
sequence ready, qr-stored "ABC", authenticated — the `authenticated`
handler clears `qrCode` before any `ready` event follows the token, so
after it the token is empty and `isAuthenticated()` is already true even
though no `ready` event occurred after the qr event.  This refutes the
universally quantified reading of the claim. -/
theorem qr_window_cex :
    ¬ (∀ (s1 s2 s3 : MState) (url : String) (l2 : List Ev),
        Reach s1 → Step s1 (Ev.qrStored url) s2 → RunTo s2 l2 s3 →
        Ev.ready ∉ l2 → (s3.qrCode ≠ none ∧ isAuthenticated s3 = false)) := by
  intro h
  have h2 := h (onReady init0) (onQrStored "ABC" (onReady init0))
      (onAuthenticated (onQrStored "ABC" (onReady init0))) "ABC" [Ev.authed]
      (Reach.step Reach.init (Step.ready init0 rfl))
      (Step.qrStored (onReady init0) "ABC")
      (RunTo.cons (Step.authed (onQrStored "ABC" (onReady init0))) (RunTo.nil _))
      (by decide)
  exact h2.1 rfl

/-- Claim C3 (amended): after a qr-stored event the stored token is
non-empty and `isAuthenticated()` is false until the FIRST subsequent
event among ready, authenticated and auth_failure (not merely until
ready: the `authenticated` and `auth_failure` handlers also clear the
token), a `ready` step then clears the token and marks the session ready;
and if the session was not already ready when the token window opened,
`isAuthenticated()` stays false until a `ready` event even past an
intervening `authenticated` event. -/
theorem qr_window_amended :
    (∀ (s1 s2 s3 : MState) (url : String) (l2 : List Ev),
      Step s1 (Ev.qrStored url) s2 → RunTo s2 l2 s3 →
      (∀ e ∈ l2, e ≠ Ev.ready ∧ e ≠ Ev.authed ∧ e ≠ Ev.authFailed) →
      s2.qrCode = some url ∧ s3.qrCode ≠ none ∧ isAuthenticated s3 = false
      ∧ ∀ s4 : MState, Step s3 Ev.ready s4 →
          s4.qrCode = none ∧ s4.clientReady = true ∧ isAuthenticated s4 = true)
    ∧ (∀ (s2 s3 : MState) (l2 : List Ev), RunTo s2 l2 s3 →
        s2.clientReady = false → Ev.ready ∉ l2 → isAuthenticated s3 = false) := by
  constructor
  · intro s1 s2 s3 url l2 hstep hrun hl
    have h2 : s2.qrCode = some url := by
      cases hstep
      rfl
    have h3 : s3.qrCode ≠ none := by
      refine qrCode_some_preserved hrun hl ?_
      rw [h2]
      intro hc
      cases hc
    refine ⟨h2, h3, isAuthenticated_false_of_qr h3, ?_⟩
    intro s4 hs4
    cases hs4
    refine ⟨rfl, rfl, ?_⟩
    simp [isAuthenticated, onReady]
  · intro s2 s3 l2 hrun h0 hl
    have h3 : s3.clientReady = false := clientReady_false_preserved hrun hl h0
    simp [isAuthenticated, h3]

/-- Claim C3 witness: the amended theorem applied to the concrete scenario
of the spec — the manager starts, a token "ABC" is stored, no further
event: the token is exposed and `isAuthenticated()` is false; the `ready`
event then clears it and authenticates. -/
theorem qr_window_amended_witness :
    (onQrStored "ABC" init0).qrCode = some "ABC"
    ∧ isAuthenticated (onQrStored "ABC" init0) = false
    ∧ isAuthenticated (onReady (onQrStored "ABC" init0)) = true := by
  have h := qr_window_amended.1 init0 (onQrStored "ABC" init0) (onQrStored "ABC" init0)
      "ABC" [] (Step.qrStored init0 "ABC") (RunTo.nil _) (by simp)
  exact ⟨h.1, h.2.2.1,
    (h.2.2.2 (onReady (onQrStored "ABC" init0))
      (Step.ready (onQrStored "ABC" init0) rfl)).2.2⟩

/-- Claim C5 counterexample: the `POST /send-file` handler of
`src/unnamed/part_001` (a source cited by the claim), evaluated against
the concrete not-ready initial manager state, still invokes the client
handle (the call log contains the send call) and answers the downstream
rejection with a generic 500 carrying the downstream message, not any
distinguishable client-not-ready condition. -/
theorem facade_ready_check_cex :
    isClientReadyP0 init0 = false
    ∧ CallEv.clientSendMessage
        ∈ (sendFileApp1 init0 (Except.ok ()) (Except.error "Session closed")).2
    ∧ (sendFileApp1 init0 (Except.ok ()) (Except.error "Session closed")).1
        = ⟨500, "Session closed"⟩ := by
  decide

/-- Claim C5 (amended): the send-file and conversations handlers of
`src/unnamed/part_002` check the manager readiness first and, when it is
not ready, fail fast with a 400 "client not ready" response without making
any client call; the handlers of `src/unnamed/part_001` perform no
readiness check at all — the send-file handler invokes the client
regardless of the manager state and surfaces downstream failures as
generic 500 responses. -/
theorem facade_ready_check_amended :
    (∀ (s : MState) (p : Bool) (fr sr : Except String Unit),
        isClientReadyP0 s = false →
        sendFileApp2 s p fr sr = (⟨400, notReadyMsgApp2⟩, []))
    ∧ (∀ (s : MState) (ch : Except String Nat) (fe : Except String Unit),
        isClientReadyP0 s = false →
        conversationsApp2 s ch fe = (⟨400, notReadyMsgConv⟩, []))
    ∧ (∀ (s : MState) (fr sr : Except String Unit),
        CallEv.mediaFromUrl ∈ (sendFileApp1 s fr sr).2)
    ∧ (∀ (s : MState) (m : String),
        (sendFileApp1 s (Except.ok ()) (Except.error m)).1 = ⟨500, m⟩) := by
  refine ⟨?_, ?_, ?_, ?_⟩
  · intro s p fr sr h
    simp [sendFileApp2, h]
  · intro s ch fe h
    simp [conversationsApp2, h]
  · intro s fr sr
    cases fr <;> cases sr <;> simp [sendFileApp1]
  · intro s m
    rfl

/-- Claim C5 witness: the fail-fast conjuncts applied at the concrete
not-ready initial state. -/
theorem facade_ready_check_amended_witness :
    sendFileApp2 init0 true (Except.ok ()) (Except.ok ())
      = (⟨400, notReadyMsgApp2⟩, [])
    ∧ conversationsApp2 init0 (Except.ok 3) (Except.ok ())
      = (⟨400, notReadyMsgConv⟩, []) :=
  ⟨facade_ready_check_amended.1 init0 true (Except.ok ()) (Except.ok ()) rfl,
   facade_ready_check_amended.2.1 init0 (Except.ok 3) (Except.ok ()) rfl⟩

/-- Claim C8 counterexample: in `src/services/whatsappService.js` (a
source cited by the claim), `logout()` on the concrete ready state with a
stored token makes the client-logout call while `clientReady` is still
true and the token is still stored — no optimistic clearing precedes the
call, refuting the claim for that file. -/
theorem logout_optimistic_clear_cex :
    (CallEv.clientLogout, s8) ∈ (logoutV1 s8 false true).2
    ∧ s8.clientReady = true ∧ s8.qrCode = some "QR" := by
  decide

/-- Claim C8 (amended): the variant of `logout()` in
`src/unnamed/part_000` clears the readiness flag and the stored login
token immediately, before the best-effort client logout call and before
artifact removal — every client-logout and artifact-removal call in its
log is made in a state with `clientReady = false` and no token; the
`logout()` of `src/services/whatsappService.js` performs no such clearing
itself: its client-logout call sees the caller state unchanged, the token
survives the whole call, and readiness is cleared only by the restart
sequence it invokes. -/
theorem restart_log_no_logout (s : MState) (ok : Bool) (t : MState)
    (h : (CallEv.clientLogout, t) ∈ (restartV1 s ok).2) : False := by
  by_cases hrr : s.restarting = true
  · simp [restartV1, hrr] at h
  · have hb : (CallEv.clientLogout, t) ∈ (restartBodyV1 (restartEnter s)).2 := by
      by_cases hk : ok = true <;> simp_all [restartV1]
    by_cases hc2 : (restartEnter s).hasClient = true <;>
      simp [restartBodyV1, hc2] at hb

theorem restartP0_log_cleared (s : MState) (mock ok : Bool) (c : CallEv) (t : MState)
    (h : (c, t) ∈ (restartP0 { s with clientReady := false, qrCode := none } mock ok).2) :
    t.clientReady = false ∧ t.qrCode = none := by
  by_cases hr : s.restarting = true
  · simp [restartP0, hr] at h
  · have hb : (c, t) ∈ (restartBodyP0 mock
        (restartEnter { s with clientReady := false, qrCode := none })).2 := by
      by_cases hk : ok = true <;> simp_all [restartP0]
    have hs := restartBodyP0_states mock
        (restartEnter { s with clientReady := false, qrCode := none }) c t hb
    exact ⟨by simpa [restartEnter] using hs.2.2, by simpa [restartEnter] using hs.2.1⟩

/-- Claim C8 (amended): the variant of `logout()` in
`src/unnamed/part_000` clears the readiness flag and the stored login
token immediately, before the best-effort client logout call and before
artifact removal — every call in its log is made in a state with
`clientReady = false` and no stored token; the `logout()` of
`src/services/whatsappService.js` performs no such clearing itself: its
client-logout call sees the caller state unchanged, the token survives
the whole call, and readiness is cleared only by the restart sequence it
invokes. -/
theorem logout_optimistic_clear_amended :
    (∀ (s : MState) (mock lf ok : Bool) (c : CallEv) (t : MState),
        (c, t) ∈ (logoutP0 s mock lf ok).2 →
        t.clientReady = false ∧ t.qrCode = none)
    ∧ (∀ (s : MState) (lf ok : Bool) (t : MState),
        (CallEv.clientLogout, t) ∈ (logoutV1 s lf ok).2 → t = s)
    ∧ (∀ (s : MState) (lf ok : Bool), ((logoutV1 s lf ok).1).qrCode = s.qrCode) := by
  refine ⟨?_, ?_, ?_⟩
  · intro s mock lf ok c t hmem
    by_cases hm : (!mock && s.hasClient) = true <;> by_cases hl : lf = true <;>
      simp only [logoutP0, hm, hl, if_true, if_neg, ite_true, ite_false,
        Bool.false_eq_true, reduceIte, List.cons_append, List.nil_append,
        List.mem_cons, Prod.mk.injEq] at hmem
    · rcases hmem with ⟨-, rfl⟩ | ⟨-, rfl⟩ | h
      · exact ⟨rfl, rfl⟩
      · exact ⟨rfl, rfl⟩
      · exact restartP0_log_cleared s mock ok c t h
    · rcases hmem with ⟨-, rfl⟩ | ⟨-, rfl⟩ | ⟨-, rfl⟩ | h
      · exact ⟨rfl, rfl⟩
      · exact ⟨rfl, rfl⟩
      · exact ⟨rfl, rfl⟩
      · exact restartP0_log_cleared s mock ok c t h
    · rcases hmem with ⟨-, rfl⟩ | ⟨-, rfl⟩ | h
      · exact ⟨rfl, rfl⟩
      · exact ⟨rfl, rfl⟩
      · exact restartP0_log_cleared s mock ok c t h
    · rcases hmem with ⟨-, rfl⟩ | ⟨-, rfl⟩ | h
      · exact ⟨rfl, rfl⟩
      · exact ⟨rfl, rfl⟩
      · exact restartP0_log_cleared s mock ok c t h
  · intro s lf ok t hmem
    by_cases hcl : (s.hasClient && s.clientReady) = true <;>
      simp only [logoutV1, hcl, ite_self, if_true, ite_true, ite_false,
        Bool.false_eq_true, reduceIte, List.cons_append, List.nil_append,
        List.mem_cons, Prod.mk.injEq] at hmem
    · rcases hmem with ⟨-, rfl⟩ | ⟨h, -⟩ | h
      · rfl
      · cases h
      · exact (restart_log_no_logout s ok t h).elim
    · rcases hmem with ⟨h, -⟩ | h
      · cases h
      · exact (restart_log_no_logout s ok t h).elim
  · intro s lf ok
    by_cases hr : s.restarting = true
    · simp [logoutV1, restartV1, hr]
    · by_cases hk : ok = true <;>
        simp [logoutV1, restartV1, hr, restartBodyV1, hk, restartEnter,
          destroyStep, restartCatch] <;>
        split <;> rfl

/-- Claim C8 witness: the part_000 clearing conjunct applied to a concrete
client-logout log entry of `logoutP0` on the ready state with a stored
token. -/
theorem logout_optimistic_clear_amended_witness :
    ({ s8 with clientReady := false, qrCode := none } : MState).clientReady = false
    ∧ ({ s8 with clientReady := false, qrCode := none } : MState).qrCode = none :=
  logout_optimistic_clear_amended.1 s8 false false true CallEv.clientLogout
    { s8 with clientReady := false, qrCode := none } (by decide)

/-- Claim C10 counterexample: in the qr encoding callback of
`src/services/whatsappService.js` (a source cited by the claim) there is
no empty-url guard — on a callback yielding an empty url with no error,
the previously stored token of the concrete state `s10` is overwritten
with the empty value, refuting the claim for that file. -/
theorem qr_cb_cex :
    qrCbV1 s10 (Except.ok "") ≠ s10
    ∧ (qrCbV1 s10 (Except.ok "")).qrCode = some "" := by
  decide

/-- Claim C10 (amended): when the qr encoding callback yields an error,
both variants return without mutating the stored token; the
`src/unnamed/part_000` variant additionally leaves the token unchanged on
an empty url, whereas the `src/services/whatsappService.js` callback
stores whatever url it receives, the empty one included; in both variants
the synchronous qr event handler mutates nothing — the token is stored
only asynchronously, in the encoding callback. -/
theorem qr_cb_amended :
    (∀ s : MState, qrCbV1 s (Except.error ()) = s)
    ∧ (∀ s : MState, qrCbP0 s (Except.error ()) = s)
    ∧ (∀ s : MState, qrCbP0 s (Except.ok "") = s)
    ∧ (∀ (s : MState) (url : String),
        qrCbV1 s (Except.ok url) = { s with qrCode := some url })
    ∧ (∀ (s : MState) (url : String), url ≠ "" →
        qrCbP0 s (Except.ok url) = { s with qrCode := some url })
    ∧ (∀ (s : MState) (raw : String) (s' : MState),
        Step s (Ev.qrRaw raw) s' → s' = s) := by
  refine ⟨fun s => rfl, fun s => rfl, fun s => rfl, fun s url => rfl, ?_, ?_⟩
  · intro s url h
    simp [qrCbP0, h]
  · intro s raw s' hs
    cases hs
    rfl

/-- Claim C10 witness: the non-empty-url storing conjunct of the part_000
callback applied at the concrete state `s10` and url "DATA". -/
theorem qr_cb_amended_witness :
    qrCbP0 s10 (Except.ok "DATA") = { s10 with qrCode := some "DATA" } :=
  qr_cb_amended.2.2.2.2.1 s10 "DATA" (by decide)

end WaSendFile
